import Mathlib

/-
Verification of the ESP32 storm-sensor controller.

Shallow embedding of the control-decision core of the repository:
  * `main.py`   (DHT11-integrated variant, class EnhancedStormSensor) —
    embedded at top level below, keeping the source method names;
  * `renesans_latest.py` (pre-DHT11 enhanced variant) — embedded in the
    `Renesans` namespace.

Pin levels are modelled as `Bool`: `true` is the electrical HIGH (value 1)
and `false` is LOW (value 0).  In `main.py` the LEDs are active-low
(`value(0)` turns the LED on) and the antenna relay is active-high; the
definitions keep the raw pin levels exactly as the source writes them.
Temperatures and humidities are integers, as delivered by the DHT11 driver.
Fallible sensor reads are modelled with `Except`: the `Except.error` case
corresponds to the `except` clause of the Python `try` block, and totality
of the Lean functions reflects that the decision path never propagates an
exception.  Timestamps are omitted: no control decision depends on them.
-/

/-- Weather thresholds held on the controller object
(`humidity_threshold`, `temp_min`, `temp_max`, main.py lines 53-56). -/
structure Thresholds where
  humidity_threshold : Int
  temp_min : Int
  temp_max : Int
deriving DecidableEq

/-- The constructor defaults of main.py lines 54-56: humidity 80, temp 5-35. -/
def defaultThresholds : Thresholds :=
  { humidity_threshold := 80, temp_min := 5, temp_max := 35 }

/-- The manual-override flag store `self.manual_override`
(main.py lines 74-80), one boolean per controllable channel. -/
structure Overrides where
  storm_led : Bool
  clouds_led : Bool
  on_air_led : Bool
  antenna : Bool
deriving DecidableEq

/-- Physical output-pin levels (main.py lines 58-62):
antenna relay on GPIO 19, storm LED GPIO 0, clouds LED GPIO 15,
on-air LED GPIO 2.  LEDs are active-low, the relay active-high. -/
structure Pins where
  antenna_relay : Bool
  storm_led : Bool
  clouds_led : Bool
  on_air_led : Bool
deriving DecidableEq

/-- Whole controller state carried across decision cycles:
pin levels plus the override store. -/
structure SysState where
  pins : Pins
  manual_override : Overrides
deriving DecidableEq

/-- State right after `__init__` (main.py lines 64-80): relay LOW (off),
all LEDs HIGH (off), every override flag false. -/
def initState : SysState :=
  { pins := { antenna_relay := false, storm_led := true,
              clouds_led := true, on_air_led := true },
    manual_override := { storm_led := false, clouds_led := false,
                         on_air_led := false, antenna := false } }

/-- Raw electrical readings available to one `read_sensors` call:
PIR level, storm-sensor level, and the DHT11 measurement
(`none` when the driver is missing, raises, or returns `None`). -/
structure RawReadings where
  presence : Bool
  storm : Bool
  dht : Option (Int × Int)
deriving DecidableEq

/-- The dictionary produced by `read_sensors` (main.py lines 183-193),
without the timestamp field. -/
structure Snapshot where
  presence : Bool
  storm : Bool
  clouds : Bool
  antenna_connected : Bool
  temperature : Option Int
  humidity : Option Int
  weather_status : String
  dht_status : String
deriving DecidableEq

/-- `read_dht11` (main.py lines 130-150): validate a measurement against
the plausibility band (temperature in [-40, 80], humidity in [0, 100]);
out-of-band readings become absent.  The driver-missing, exception and
`None`-reading failure modes are collapsed into the `none` measurement. -/
def read_dht11 (meas : Option (Int × Int)) : Option Int × Option Int × String :=
  match meas with
  | none => (none, none, "Read failed")
  | some (t, h) =>
      if -40 ≤ t ∧ t ≤ 80 ∧ 0 ≤ h ∧ h ≤ 100 then
        (some t, some h, "OK")
      else
        (none, none, "Invalid readings")

/-- The weather-classification block inlined in `read_sensors`
(main.py lines 166-179), as a function of thresholds, temperature and
humidity: returns the `clouds` boolean and the `weather_status` text.
First match wins: high humidity, then cold, then hot, then good. -/
def classifyClouds (th : Thresholds) (temperature humidity : Int) : Bool × String :=
  if humidity > th.humidity_threshold then
    (true, "High humidity (" ++ toString humidity ++ "%) - Cloudy")
  else if temperature < th.temp_min then
    (true, "Cold weather (" ++ toString temperature ++ "°C) - Poor conditions")
  else if temperature > th.temp_max then
    (true, "Hot weather (" ++ toString temperature ++ "°C) - Extreme heat")
  else
    (false, "Good weather (" ++ toString temperature ++ "°C, " ++ toString humidity ++ "%)")

/-- `read_sensors` (main.py lines 152-206).  `relayPin` is the level read
back from the antenna relay pin at the start of the cycle.  An exception
while reading (the `Except.error` case) yields the fail-safe snapshot of
lines 196-206: presence, storm, clouds and relay readback all false,
readings absent. -/
def read_sensors (th : Thresholds) (relayPin : Bool)
    (raw : Except String RawReadings) : Snapshot :=
  match raw with
  | Except.ok r =>
      match read_dht11 r.dht with
      | (some t, some h, dhtStatus) =>
          let c := classifyClouds th t h
          { presence := r.presence, storm := r.storm, clouds := c.1,
            antenna_connected := relayPin, temperature := some t,
            humidity := some h, weather_status := c.2, dht_status := dhtStatus }
      | (topt, hopt, dhtStatus) =>
          { presence := r.presence, storm := r.storm, clouds := false,
            antenna_connected := relayPin, temperature := topt,
            humidity := hopt, weather_status := "DHT11 error: " ++ dhtStatus,
            dht_status := dhtStatus }
  | Except.error _ =>
      { presence := false, storm := false, clouds := false,
        antenna_connected := false, temperature := none, humidity := none,
        weather_status := "Sensor error", dht_status := "Error" }

/-- The four controllable output channels. -/
inductive Chan where
  | storm_led
  | clouds_led
  | on_air_led
  | antenna
deriving DecidableEq

/-- One physical write performed during a cycle: which channel and the
pin level written. -/
structure WriteEvent where
  chan : Chan
  value : Bool
deriving DecidableEq

/-- Result of one `update_logic` cycle: the post-cycle controller state,
the list of physical writes issued during the cycle in order, the derived
`should_connect` decision and the `control_reason` string. -/
structure CycleResult where
  state : SysState
  writes : List WriteEvent
  should_connect : Bool
  reason : String
deriving DecidableEq

/-- The antenna decision chain of `update_logic` (main.py lines 225-241):
first `not presence`, then `storm`, then `presence and not storm`, then
the defensive default.  Returns the decision and the reason text. -/
def antenna_plan (s : Snapshot) : Bool × String :=
  if !s.presence then
    (false, "No person detected")
  else if s.storm then
    (false, "Storm detected - safety first!")
  else if s.presence && !s.storm then
    (true,
      if s.clouds then "Person present, " ++ s.weather_status ++ " (antenna ON)"
      else "Person present, " ++ s.weather_status ++ " (antenna ON)")
  else
    (false, "Unknown condition")

/-- Body of `update_logic` (main.py lines 208-260) after the snapshot has
been taken.  Storm and clouds LEDs are written when their flags are clear
(lines 217-221); then, only when the antenna flag is clear (line 224), the
antenna decision is derived, the relay written on change against the
snapshot readback (lines 244-247), and the on-air LED written when its own
flag is clear (lines 250-251).  With the antenna flag set, the decision is
the relay readback and the reason is the override notice (lines 252-254). -/
def update_logic_core (s : Snapshot) (st : SysState) : CycleResult :=
  let ov := st.manual_override
  let p1 := if ov.storm_led then st.pins else { st.pins with storm_led := !s.storm }
  let w1 : List WriteEvent :=
    if ov.storm_led then [] else [{ chan := Chan.storm_led, value := !s.storm }]
  let p2 := if ov.clouds_led then p1 else { p1 with clouds_led := !s.clouds }
  let w2 : List WriteEvent :=
    if ov.clouds_led then [] else [{ chan := Chan.clouds_led, value := !s.clouds }]
  if ov.antenna then
    { state := { pins := p2, manual_override := ov },
      writes := w1 ++ w2,
      should_connect := s.antenna_connected,
      reason := "Manual override active" }
  else
    let plan := antenna_plan s
    let sc := plan.1
    let p3 := if sc != s.antenna_connected then { p2 with antenna_relay := sc } else p2
    let w3 : List WriteEvent :=
      if sc != s.antenna_connected then [{ chan := Chan.antenna, value := sc }] else []
    let p4 := if ov.on_air_led then p3 else { p3 with on_air_led := !sc }
    let w4 : List WriteEvent :=
      if ov.on_air_led then [] else [{ chan := Chan.on_air_led, value := !sc }]
    { state := { pins := p4, manual_override := ov },
      writes := w1 ++ w2 ++ w3 ++ w4,
      should_connect := sc,
      reason := plan.2 }

/-- `update_logic` (main.py lines 208-260): take the snapshot with the
relay readback from the current pins, then run the decision body. -/
def update_logic (th : Thresholds) (raw : Except String RawReadings)
    (st : SysState) : CycleResult :=
  update_logic_core (read_sensors th st.pins.antenna_relay raw) st

/-- `control_antenna` (main.py lines 266-276): write the relay to the
requested state unconditionally; when `manual` is set, also mark the
antenna and on-air overrides and drive the on-air LED to match. -/
def control_antenna (connect : Bool) (manual : Bool) (st : SysState) : SysState :=
  let st1 : SysState := { st with pins := { st.pins with antenna_relay := connect } }
  if manual then
    { pins := { st1.pins with on_air_led := !connect },
      manual_override := { st1.manual_override with antenna := true, on_air_led := true } }
  else
    st1

/-- `control_led` (main.py lines 278-305): write the named LED to the
inverted level and mark that LED overridden; unknown names are no-ops. -/
def control_led (led_type : String) (state : Bool) (st : SysState) : SysState :=
  let led_value := !state
  if led_type = "storm" ∨ led_type = "led1" then
    { pins := { st.pins with storm_led := led_value },
      manual_override := { st.manual_override with storm_led := true } }
  else if led_type = "clouds" ∨ led_type = "led2" then
    { pins := { st.pins with clouds_led := led_value },
      manual_override := { st.manual_override with clouds_led := true } }
  else if led_type = "on_air" ∨ led_type = "led3" then
    { pins := { st.pins with on_air_led := led_value },
      manual_override := { st.manual_override with on_air_led := true } }
  else
    st

/-- `reset_manual_overrides` (main.py lines 307-315): replace the override
store with the all-false record; the pins are not touched. -/
def reset_manual_overrides (st : SysState) : SysState :=
  { st with manual_override := { storm_led := false, clouds_led := false,
                                 on_air_led := false, antenna := false } }

/-- The override flag of a given channel. -/
def overrideOf (st : SysState) : Chan → Bool
  | Chan.storm_led => st.manual_override.storm_led
  | Chan.clouds_led => st.manual_override.clouds_led
  | Chan.on_air_led => st.manual_override.on_air_led
  | Chan.antenna => st.manual_override.antenna

/-- The pin level of a given channel. -/
def pinOf (p : Pins) : Chan → Bool
  | Chan.storm_led => p.storm_led
  | Chan.clouds_led => p.clouds_led
  | Chan.on_air_led => p.on_air_led
  | Chan.antenna => p.antenna_relay

namespace Renesans

/-- Output pins of the pre-DHT11 enhanced variant
(renesans_latest.py lines 37-41): antenna relay GPIO 2, status LED
GPIO 23, storm LED GPIO 19, clouds LED GPIO 21.  All LEDs here are
active-high.  The class keeps no override store: the pins are the whole
state carried across cycles. -/
structure Pins where
  antenna_relay : Bool
  status_led : Bool
  storm_led : Bool
  clouds_led : Bool
deriving DecidableEq

/-- Raw electrical readings of the variant: PIR, storm and clouds
sensor levels. -/
structure RawReadings where
  presence : Bool
  storm : Bool
  clouds : Bool
deriving DecidableEq

/-- The dictionary produced by `read_sensors`
(renesans_latest.py lines 91-114), without the timestamp. -/
structure Snapshot where
  presence : Bool
  storm : Bool
  clouds : Bool
  antenna_connected : Bool
deriving DecidableEq

/-- `read_sensors` (renesans_latest.py lines 91-114): the `Except.error`
case is the `except` clause, yielding the all-false fail-safe snapshot. -/
def read_sensors (relayPin : Bool) (raw : Except String RawReadings) : Snapshot :=
  match raw with
  | Except.ok r =>
      { presence := r.presence, storm := r.storm, clouds := r.clouds,
        antenna_connected := relayPin }
  | Except.error _ =>
      { presence := false, storm := false, clouds := false,
        antenna_connected := false }

/-- Result of one cycle of the variant: post-cycle pins, the decision
and the reason. -/
structure CycleResult where
  pins : Pins
  should_connect : Bool
  reason : String
deriving DecidableEq

/-- The antenna decision chain of `update_logic`
(renesans_latest.py lines 134-154): `not presence` first, then `storm`,
then `presence and not storm`, then the defensive default. -/
def antenna_plan (s : Snapshot) : Bool × String :=
  if !s.presence then
    (false, "No person detected")
  else if s.storm then
    (false, "Storm detected - safety first!")
  else if s.presence && !s.storm then
    (true,
      if s.clouds then "Person present, cloudy weather (antenna ON)"
      else "Person present, clear weather (antenna ON)")
  else
    (false, "Unknown condition")

/-- Body of `update_logic` (renesans_latest.py lines 116-164) after the
snapshot: the storm and clouds LEDs are unconditionally rewritten from
the sensors (lines 125-126), then the antenna decision is derived and
the relay written on change against the snapshot readback
(lines 156-160). -/
def update_logic_core (s : Snapshot) (p : Pins) : CycleResult :=
  let p1 : Pins := { p with storm_led := s.storm, clouds_led := s.clouds }
  let plan := antenna_plan s
  let sc := plan.1
  let p2 := if sc != s.antenna_connected then { p1 with antenna_relay := sc } else p1
  { pins := p2, should_connect := sc, reason := plan.2 }

/-- `update_logic` (renesans_latest.py lines 116-164). -/
def update_logic (raw : Except String RawReadings) (p : Pins) : CycleResult :=
  update_logic_core (read_sensors p.antenna_relay raw) p

/-- `control_antenna` (renesans_latest.py lines 170-177): writes the relay
pin; the `manual` argument only selects a log message, and no flag of any
kind is recorded. -/
def control_antenna (connect : Bool) (manual : Bool) (p : Pins) : Pins :=
  { p with antenna_relay := connect }

/-- `control_led` (renesans_latest.py lines 179-190): writes the named LED
pin; records nothing. -/
def control_led (led_type : String) (state : Bool) (p : Pins) : Pins :=
  if led_type = "storm" then { p with storm_led := state }
  else if led_type = "clouds" then { p with clouds_led := state }
  else if led_type = "status" then { p with status_led := state }
  else p

end Renesans

/-- The decision of the antenna chain is presence AND NOT storm. -/
theorem antenna_plan_fst (s : Snapshot) :
    (antenna_plan s).1 = (s.presence && !s.storm) := by
  cases hp : s.presence <;> cases hs : s.storm <;> simp [antenna_plan, hp, hs]

/-- The snapshot of a successful read carries the raw presence level. -/
theorem read_sensors_ok_presence (th : Thresholds) (relay : Bool) (r : RawReadings) :
    (read_sensors th relay (Except.ok r)).presence = r.presence := by
  rcases hd : read_dht11 r.dht with ⟨topt, hopt, ds⟩
  cases topt <;> cases hopt <;> simp [read_sensors, hd]

/-- The snapshot of a successful read carries the raw storm level. -/
theorem read_sensors_ok_storm (th : Thresholds) (relay : Bool) (r : RawReadings) :
    (read_sensors th relay (Except.ok r)).storm = r.storm := by
  rcases hd : read_dht11 r.dht with ⟨topt, hopt, ds⟩
  cases topt <;> cases hopt <;> simp [read_sensors, hd]

/-- The snapshot of a successful read carries the relay readback. -/
theorem read_sensors_ok_antenna_connected (th : Thresholds) (relay : Bool)
    (r : RawReadings) :
    (read_sensors th relay (Except.ok r)).antenna_connected = relay := by
  rcases hd : read_dht11 r.dht with ⟨topt, hopt, ds⟩
  cases topt <;> cases hopt <;> simp [read_sensors, hd]

/-- `update_logic_core` never touches the override store. -/
theorem update_logic_core_override (s : Snapshot) (st : SysState) :
    (update_logic_core s st).state.manual_override = st.manual_override := by
  simp only [update_logic_core]
  split <;> rfl

/-- With the antenna flag clear, the decision of a cycle is
presence AND NOT storm of the snapshot taken during the cycle. -/
theorem update_should_connect (th : Thresholds) (raw : Except String RawReadings)
    (st : SysState) (h : st.manual_override.antenna = false) :
    (update_logic th raw st).should_connect =
      ((read_sensors th st.pins.antenna_relay raw).presence &&
        !(read_sensors th st.pins.antenna_relay raw).storm) := by
  simp [update_logic, update_logic_core, h, antenna_plan_fst]

/-- C1: for every sensor snapshot, when the antenna override flag is false,
the antenna decision of `update_logic` equals presence AND NOT storm: with
storm true it is disconnect regardless of presence or weather, with
presence false it is disconnect, and with presence true and storm false it
is connect regardless of the clouds classification. -/
theorem C1_antenna_decision (th : Thresholds) (raw : Except String RawReadings)
    (st : SysState) (h : st.manual_override.antenna = false) :
    (update_logic th raw st).should_connect =
      ((read_sensors th st.pins.antenna_relay raw).presence &&
        !(read_sensors th st.pins.antenna_relay raw).storm) :=
  update_should_connect th raw st h

/-- C1 witness: at the initial state with presence true and storm false the
decision evaluates to connect. -/
theorem C1_antenna_decision_witness :
    (update_logic defaultThresholds
      (Except.ok { presence := true, storm := false, dht := none })
      initState).should_connect = true := by
  rw [C1_antenna_decision defaultThresholds
    (Except.ok { presence := true, storm := false, dht := none }) initState rfl]
  rfl

/-- C2 counterexample: with storm true but presence false and no override,
both variants report the no-person reason, not the storm reason — the
`not presence` branch is evaluated before the storm branch in
`update_logic` (main.py line 225 before line 228, renesans_latest.py
line 134 before line 139). -/
theorem C2_counterexample :
    (update_logic defaultThresholds
        (Except.ok { presence := false, storm := true, dht := none })
        initState).reason = "No person detected" ∧
    (update_logic defaultThresholds
        (Except.ok { presence := false, storm := true, dht := none })
        initState).reason ≠ "Storm detected - safety first!" ∧
    (Renesans.update_logic
        (Except.ok { presence := false, storm := true, clouds := false })
        { antenna_relay := false, status_led := false,
          storm_led := false, clouds_led := false }).reason
      = "No person detected" := by
  refine ⟨rfl, ?_, rfl⟩
  decide

/-- C2 (amended): the no-person check is evaluated first; with the antenna
not overridden, the storm reason "Storm detected - safety first!" is
produced exactly when presence is true and storm is true, while any
snapshot with presence false — even with storm true — yields the reason
"No person detected". -/
theorem C2_amended (th : Thresholds) (raw : Except String RawReadings)
    (st : SysState) (h : st.manual_override.antenna = false) :
    ((read_sensors th st.pins.antenna_relay raw).presence = true →
      (read_sensors th st.pins.antenna_relay raw).storm = true →
      (update_logic th raw st).reason = "Storm detected - safety first!") ∧
    ((read_sensors th st.pins.antenna_relay raw).presence = false →
      (update_logic th raw st).reason = "No person detected") := by
  constructor
  · intro hp hs
    simp [update_logic, update_logic_core, h, antenna_plan, hp, hs]
  · intro hp
    simp [update_logic, update_logic_core, h, antenna_plan, hp]

/-- C2 witness: with a person present during a storm the storm reason is
produced. -/
theorem C2_amended_witness :
    (update_logic defaultThresholds
      (Except.ok { presence := true, storm := true, dht := none })
      initState).reason = "Storm detected - safety first!" :=
  (C2_amended defaultThresholds
    (Except.ok { presence := true, storm := true, dht := none })
    initState rfl).1 rfl rfl

/-- C5: an exception while reading the sensors yields exactly the
fail-safe snapshot (presence, storm, clouds and relay readback false,
temperature and humidity absent), and the cycle's antenna decision is
disconnect.  The decision path is a total Lean function, reflecting that
the Python handler catches the exception rather than propagating it
(main.py lines 194-206). -/
theorem C5_failsafe (th : Thresholds) (e : String) (relay : Bool)
    (st : SysState) (h : st.manual_override.antenna = false) :
    read_sensors th relay (Except.error e) =
      { presence := false, storm := false, clouds := false,
        antenna_connected := false, temperature := none, humidity := none,
        weather_status := "Sensor error", dht_status := "Error" } ∧
    (update_logic th (Except.error e) st).should_connect = false := by
  refine ⟨rfl, ?_⟩
  simp [update_logic, update_logic_core, h, read_sensors, antenna_plan_fst]

/-- C5 witness: a concrete failed read at the initial state resolves to
disconnect. -/
theorem C5_failsafe_witness :
    (update_logic defaultThresholds (Except.error "sensor fault")
      initState).should_connect = false :=
  (C5_failsafe defaultThresholds "sensor fault" false initState rfl).2

/-- C6: for in-range readings the pair survives the `read_dht11` validity
guard, and the classifier evaluates first-match-wins in the order
humidity-high, temperature-low, temperature-high, good.  In particular
(see the witness) humidity 85 and temperature 2 against the default
thresholds give poor weather with the humidity reason. -/
theorem C6_weather_precedence (th : Thresholds) (temp hum : Int)
    (hr : -40 ≤ temp ∧ temp ≤ 80 ∧ 0 ≤ hum ∧ hum ≤ 100) :
    read_dht11 (some (temp, hum)) = (some temp, some hum, "OK") ∧
    (hum > th.humidity_threshold →
      classifyClouds th temp hum =
        (true, "High humidity (" ++ toString hum ++ "%) - Cloudy")) ∧
    (hum ≤ th.humidity_threshold → temp < th.temp_min →
      classifyClouds th temp hum =
        (true, "Cold weather (" ++ toString temp ++ "°C) - Poor conditions")) ∧
    (hum ≤ th.humidity_threshold → th.temp_min ≤ temp → temp > th.temp_max →
      classifyClouds th temp hum =
        (true, "Hot weather (" ++ toString temp ++ "°C) - Extreme heat")) ∧
    (hum ≤ th.humidity_threshold → th.temp_min ≤ temp → temp ≤ th.temp_max →
      classifyClouds th temp hum =
        (false, "Good weather (" ++ toString temp ++ "°C, "
          ++ toString hum ++ "%)")) := by
  refine ⟨by simp [read_dht11, hr], ?_, ?_, ?_, ?_⟩
  · intro h1
    simp [classifyClouds, h1]
  · intro h1 h2
    simp [classifyClouds, h1, h2, not_lt.mpr h1]
  · intro h1 h2 h3
    simp [classifyClouds, not_lt.mpr h1, not_lt.mpr h2, h3]
  · intro h1 h2 h3
    simp [classifyClouds, not_lt.mpr h1, not_lt.mpr h2, not_lt.mpr h3]

/-- C6 witness: humidity 85 and temperature 2 against thresholds
humidity-max 80, temp-min 5, temp-max 35 classify as poor weather with the
humidity reason, even though the temperature-low check is also true. -/
theorem C6_weather_precedence_witness :
    classifyClouds defaultThresholds 2 85 =
      (true, "High humidity (85%) - Cloudy") := by
  have h := (C6_weather_precedence defaultThresholds 2 85 (by decide)).2.1
    (by decide)
  rw [h]
  decide

/-- C7: `reset_manual_overrides` clears all four override flags to false
and performs no write to any physical output — the pins are exactly those
before the call. -/
theorem C7_reset_overrides (st : SysState) :
    (reset_manual_overrides st).manual_override.storm_led = false ∧
    (reset_manual_overrides st).manual_override.clouds_led = false ∧
    (reset_manual_overrides st).manual_override.on_air_led = false ∧
    (reset_manual_overrides st).manual_override.antenna = false ∧
    (reset_manual_overrides st).pins = st.pins :=
  ⟨rfl, rfl, rfl, rfl, rfl⟩

/-- C8: a manual antenna command writes the relay to the requested state
regardless of the current override flags, sets the antenna override flag,
and — as the linked side effect — sets the on-air-LED override flag and
drives the on-air LED to match the requested antenna state (its active-low
pin becomes the negation of the request); the two remaining channels are
untouched. -/
theorem C8_manual_antenna (connect : Bool) (st : SysState) :
    (control_antenna connect true st).pins.antenna_relay = connect ∧
    (control_antenna connect true st).manual_override.antenna = true ∧
    (control_antenna connect true st).manual_override.on_air_led = true ∧
    (control_antenna connect true st).pins.on_air_led = !connect ∧
    (control_antenna connect true st).pins.storm_led = st.pins.storm_led ∧
    (control_antenna connect true st).pins.clouds_led = st.pins.clouds_led ∧
    (control_antenna connect true st).manual_override.storm_led
      = st.manual_override.storm_led ∧
    (control_antenna connect true st).manual_override.clouds_led
      = st.manual_override.clouds_led := by
  simp [control_antenna]

/-- C3: for every channel whose override flag is true, an automatic cycle
(`update_logic`, with any thresholds and any sensor reading) leaves that
channel's pin level unchanged and issues no physical write to it, and the
cycle changes no override flag — so only a manual command, or a reset
followed by a later automatic cycle, can change an overridden channel. -/
theorem C3_override_blocks_auto (c : Chan) (th : Thresholds)
    (raw : Except String RawReadings) (st : SysState)
    (h : overrideOf st c = true) :
    pinOf (update_logic th raw st).state.pins c = pinOf st.pins c ∧
    (∀ w ∈ (update_logic th raw st).writes, w.chan ≠ c) ∧
    (update_logic th raw st).state.manual_override = st.manual_override := by
  refine ⟨?_, ?_, update_logic_core_override _ _⟩ <;>
    cases c <;>
    simp only [overrideOf] at h <;>
    simp only [update_logic, update_logic_core, h, pinOf] <;>
    split_ifs <;>
    simp_all

/-- C3 witness: with the storm LED overridden at an otherwise initial
state, a cycle with a storm reading leaves the storm-LED pin at its old
level. -/
theorem C3_override_blocks_auto_witness :
    pinOf (update_logic defaultThresholds
        (Except.ok { presence := true, storm := true, dht := none })
        { pins := initState.pins,
          manual_override := { storm_led := true, clouds_led := false,
                               on_air_led := false, antenna := false } }).state.pins
      Chan.storm_led = true :=
  (C3_override_blocks_auto Chan.storm_led defaultThresholds
    (Except.ok { presence := true, storm := true, dht := none })
    { pins := initState.pins,
      manual_override := { storm_led := true, clouds_led := false,
                           on_air_led := false, antenna := false } } rfl).1

/-- State for the C4 counterexample: the antenna channel is overridden but
the on-air LED is not; the relay pin reads HIGH and all LEDs are HIGH
(off). -/
def stC4 : SysState :=
  { pins := { antenna_relay := true, storm_led := true,
              clouds_led := true, on_air_led := true },
    manual_override := { storm_led := false, clouds_led := false,
                         on_air_led := false, antenna := true } }

/-- C4 counterexample: a cycle whose on-air-LED override flag is false but
whose antenna override flag is true performs no on-air-LED write at all —
the on-air rule sits inside the antenna branch (main.py lines 249-251
under line 224), so it is not evaluated solely on its own flag.  Here the
decision is connect, so tracking it would require driving the active-low
pin to false, yet the pin stays HIGH and no write is issued. -/
theorem C4_counterexample :
    stC4.manual_override.on_air_led = false ∧
    (update_logic defaultThresholds
        (Except.ok { presence := true, storm := false, dht := none })
        stC4).should_connect = true ∧
    (update_logic defaultThresholds
        (Except.ok { presence := true, storm := false, dht := none })
        stC4).state.pins.on_air_led = true ∧
    Chan.on_air_led ∉
      ((update_logic defaultThresholds
        (Except.ok { presence := true, storm := false, dht := none })
        stC4).writes.map WriteEvent.chan) := by
  refine ⟨rfl, rfl, rfl, ?_⟩
  decide

/-- C4 (amended): the on-air LED tracks the derived antenna decision only
when both the on-air-LED override flag and the antenna override flag are
false; in that case the cycle writes the active-low on-air pin to the
negation of the decision. -/
theorem C4_amended (th : Thresholds) (raw : Except String RawReadings)
    (st : SysState) (ha : st.manual_override.antenna = false)
    (ho : st.manual_override.on_air_led = false) :
    (update_logic th raw st).state.pins.on_air_led
      = !(update_logic th raw st).should_connect ∧
    Chan.on_air_led ∈ (update_logic th raw st).writes.map WriteEvent.chan := by
  constructor <;>
    simp only [update_logic, update_logic_core, ha, ho] <;>
    split_ifs <;>
    simp_all

/-- C4 witness: at the initial state (no overrides) with a person present
and no storm, the on-air pin is driven to the negation of the connect
decision. -/
theorem C4_amended_witness :
    (update_logic defaultThresholds
        (Except.ok { presence := true, storm := false, dht := none })
        initState).state.pins.on_air_led
      = !(update_logic defaultThresholds
        (Except.ok { presence := true, storm := false, dht := none })
        initState).should_connect :=
  (C4_amended defaultThresholds
    (Except.ok { presence := true, storm := false, dht := none })
    initState rfl rfl).1

/-- When the derived antenna target already equals the snapshot's relay
readback, the cycle issues no antenna write. -/
theorem core_no_antenna_write (s : Snapshot) (st : SysState)
    (h : st.manual_override.antenna = false)
    (ht : (s.presence && !s.storm) = s.antenna_connected) :
    ∀ w ∈ (update_logic_core s st).writes, w.chan ≠ Chan.antenna := by
  have hsc : ((antenna_plan s).1 != s.antenna_connected) = false := by
    rw [antenna_plan_fst, ht, bne_self_eq_false]
  simp only [update_logic_core, h, hsc]
  split_ifs <;> simp_all

/-- With the antenna flag clear and a snapshot whose readback matches the
actual relay pin, the relay ends the cycle at the derived decision. -/
theorem core_relay_after (s : Snapshot) (st : SysState)
    (h : st.manual_override.antenna = false)
    (hok : s.antenna_connected = st.pins.antenna_relay) :
    (update_logic_core s st).state.pins.antenna_relay = (antenna_plan s).1 := by
  cases hb : ((antenna_plan s).1 != s.antenna_connected) with
  | false =>
      have heq : (antenna_plan s).1 = s.antenna_connected := by
        simpa using hb
      simp only [update_logic_core, h, hb]
      split_ifs <;> simp_all [heq, hok]
  | true =>
      simp only [update_logic_core, h, hb]
      split_ifs <;> simp_all

/-- C9: with the antenna not overridden, (a) a cycle whose derived target
equals the snapshot relay readback issues no antenna write; (b) a second
cycle run on the state produced by a first cycle with the same reading
issues no antenna write (write-on-change kills relay chatter on repeats);
and (c) each LED whose own flag is clear receives a write on every cycle. -/
theorem C9_write_on_change (th : Thresholds) (raw : Except String RawReadings)
    (st : SysState) (h : st.manual_override.antenna = false) :
    (((read_sensors th st.pins.antenna_relay raw).presence &&
        !(read_sensors th st.pins.antenna_relay raw).storm)
        = (read_sensors th st.pins.antenna_relay raw).antenna_connected →
      ∀ w ∈ (update_logic th raw st).writes, w.chan ≠ Chan.antenna) ∧
    (∀ w ∈ (update_logic th raw ((update_logic th raw st).state)).writes,
      w.chan ≠ Chan.antenna) ∧
    (st.manual_override.storm_led = false →
      Chan.storm_led ∈ (update_logic th raw st).writes.map WriteEvent.chan) ∧
    (st.manual_override.clouds_led = false →
      Chan.clouds_led ∈ (update_logic th raw st).writes.map WriteEvent.chan) ∧
    (st.manual_override.on_air_led = false →
      Chan.on_air_led ∈ (update_logic th raw st).writes.map WriteEvent.chan) := by
  have hov : (update_logic th raw st).state.manual_override
      = st.manual_override := update_logic_core_override _ _
  refine ⟨?_, ?_, ?_, ?_, ?_⟩
  · intro ht
    exact core_no_antenna_write _ st h ht
  · cases raw with
    | error e =>
        apply core_no_antenna_write _ _ (by rw [hov]; exact h)
        rfl
    | ok r =>
        apply core_no_antenna_write _ _ (by rw [hov]; exact h)
        rw [read_sensors_ok_presence, read_sensors_ok_storm,
          read_sensors_ok_antenna_connected]
        have hrel : (update_logic th (Except.ok r) st).state.pins.antenna_relay
            = (antenna_plan (read_sensors th st.pins.antenna_relay
                (Except.ok r))).1 :=
          core_relay_after _ st h
            (read_sensors_ok_antenna_connected th st.pins.antenna_relay r)
        rw [hrel, antenna_plan_fst, read_sensors_ok_presence,
          read_sensors_ok_storm]
  · intro hs
    simp only [update_logic, update_logic_core, h, hs]
    split_ifs <;> simp_all
  · intro hc
    simp only [update_logic, update_logic_core, h, hc]
    split_ifs <;> simp_all
  · intro ho
    simp only [update_logic, update_logic_core, h, ho]
    split_ifs <;> simp_all

/-- C9 witness: at the initial state (relay LOW) with no person and no
storm, the target equals the readback and the cycle writes the two sensor
LEDs but not the relay. -/
theorem C9_write_on_change_witness :
    (∀ w ∈ (update_logic defaultThresholds
        (Except.ok { presence := false, storm := false, dht := none })
        initState).writes, w.chan ≠ Chan.antenna) ∧
    Chan.storm_led ∈ (update_logic defaultThresholds
        (Except.ok { presence := false, storm := false, dht := none })
        initState).writes.map WriteEvent.chan :=
  ⟨(C9_write_on_change defaultThresholds
      (Except.ok { presence := false, storm := false, dht := none })
      initState rfl).1 rfl,
   (C9_write_on_change defaultThresholds
      (Except.ok { presence := false, storm := false, dht := none })
      initState rfl).2.2.1 rfl⟩

/-- The decision of the variant's antenna chain is presence AND NOT
storm. -/
theorem Renesans.antenna_plan_decision (s : Renesans.Snapshot) :
    (Renesans.antenna_plan s).1 = (s.presence && !s.storm) := by
  cases hp : s.presence <;> cases hs : s.storm <;>
    simp [Renesans.antenna_plan, hp, hs]

/-- After any cycle of the variant on a successful read, the relay sits at
the presence-and-not-storm value and both sensor LEDs mirror the raw
sensors. -/
theorem Renesans.update_logic_outputs (raw : Renesans.RawReadings)
    (p : Renesans.Pins) :
    (Renesans.update_logic (Except.ok raw) p).pins.storm_led = raw.storm ∧
    (Renesans.update_logic (Except.ok raw) p).pins.clouds_led = raw.clouds ∧
    (Renesans.update_logic (Except.ok raw) p).pins.antenna_relay
      = (raw.presence && !raw.storm) := by
  obtain ⟨pres, stm, cl⟩ := raw
  refine ⟨?_, ?_, ?_⟩ <;>
    cases pres <;> cases stm <;> cases hrel : p.antenna_relay <;>
    simp [Renesans.update_logic, Renesans.update_logic_core,
      Renesans.read_sensors, Renesans.antenna_plan, hrel]

/-- C10: the pre-DHT11 variant records no override state: `control_antenna`
and `control_led` only write a pin, so the next `update_logic` cycle
unconditionally rewrites the storm and clouds LEDs from the sensors and
leaves the relay at the presence-and-not-storm value — rewriting it
whenever that differs from the manually written value.  A manual command
does not persist across even one automatic cycle (except when it happens
to coincide with the automatic value). -/
theorem C10_manual_not_persistent (raw : Renesans.RawReadings)
    (p : Renesans.Pins) (v : Bool) :
    (Renesans.update_logic (Except.ok raw)
        (Renesans.control_antenna v true p)).pins.antenna_relay
      = (raw.presence && !raw.storm) ∧
    (Renesans.update_logic (Except.ok raw)
        (Renesans.control_antenna v true p)).pins.storm_led = raw.storm ∧
    (Renesans.update_logic (Except.ok raw)
        (Renesans.control_antenna v true p)).pins.clouds_led = raw.clouds ∧
    (Renesans.update_logic (Except.ok raw)
        (Renesans.control_led "storm" v p)).pins.storm_led = raw.storm ∧
    (Renesans.update_logic (Except.ok raw)
        (Renesans.control_led "clouds" v p)).pins.clouds_led = raw.clouds :=
  ⟨(Renesans.update_logic_outputs raw (Renesans.control_antenna v true p)).2.2,
   (Renesans.update_logic_outputs raw (Renesans.control_antenna v true p)).1,
   (Renesans.update_logic_outputs raw (Renesans.control_antenna v true p)).2.1,
   (Renesans.update_logic_outputs raw (Renesans.control_led "storm" v p)).1,
   (Renesans.update_logic_outputs raw (Renesans.control_led "clouds" v p)).2.1⟩
